import Mathlib

/-!
Shallow embedding of the GlassWindow backend (src/main.py), a FastAPI app
with four data-bearing handlers:

* `POST /api/explain` — validates the query and synthesizes a fixed response
  (function `explain`, main.py lines 130-157);
* `GET /test` — probes an optional database module and renders every failure
  into the response body (function `test_database`, lines 43-81);
* `GET /api/market/overview` — a constant snapshot plus a timestamp
  (function `market_overview`, lines 84-127);
* `GET /api/reports` — a constant two-item list plus timestamps
  (function `list_reports`, lines 160-178).

Wall-clock readings and the outcome of the external database probe are
passed as explicit parameters; Python exceptions become `Except`.
Python `float` literals are modelled as `Rat` (each literal in the source
is written exactly once and only compared for equality, so exact rationals
are a faithful model of the values the handlers serialize).
-/

/-- Python's default whitespace set used by `str.strip()`, i.e. the code
points for which `str.isspace()` is true (CPython's whitespace table):
U+0009-U+000D, U+001C-U+001F, space, U+0085, U+00A0 (no-break space),
U+1680, U+2000-U+200A, U+2028, U+2029, U+202F, U+205F and U+3000. -/
def pyIsSpace (c : Char) : Bool :=
  List.elem c.toNat
    [9, 10, 11, 12, 13, 28, 29, 30, 31, 32, 133, 160, 5760,
     8192, 8193, 8194, 8195, 8196, 8197, 8198, 8199, 8200, 8201, 8202,
     8232, 8233, 8239, 8287, 12288]

/-- Python `s.strip()`: drop leading and trailing whitespace. -/
def pyStrip (s : String) : String :=
  (((s.toList.dropWhile pyIsSpace).reverse.dropWhile pyIsSpace).reverse).asString

/-- Python `str.lower()` on one character, ASCII range. -/
def pyLowerChar (c : Char) : Char :=
  if 'A' ≤ c ∧ c ≤ 'Z' then Char.ofNat (c.toNat + 32) else c

/-- Python `s.lower()` (ASCII case mapping). -/
def pyLower (s : String) : String :=
  (s.toList.map pyLowerChar).asString

/-- Python `s[:n]` on a string (slice of the first `n` code points). -/
def pySlice (n : Nat) (s : String) : String :=
  (s.toList.take n).asString

/-- Request model `ExplainRequest` (main.py lines 20-22): `query` required,
`mode` defaults to `"expert"`. -/
structure ExplainRequest where
  query : String
  mode : String := "expert"
deriving Repr, DecidableEq

/-- Response model `ExplainResponse` (main.py lines 25-30). -/
structure ExplainResponse where
  mode : String
  summary : String
  key_points : List String
  confidence : Rat
  sources : List String := []
deriving Repr, DecidableEq

/-- Handler of `POST /api/explain` (main.py lines 130-157).
`Except.error (s, d)` models `raise HTTPException(status_code=s, detail=d)`;
`Except.ok` models a normal return, which FastAPI serves with HTTP 200.
The guard mirrors `if not req.query or len(req.query.strip()) < 3`. -/
def explain (req : ExplainRequest) : Except (Nat × String) ExplainResponse :=
  if req.query = "" ∨ (pyStrip req.query).length < 3 then
    Except.error (400, "Query is too short")
  else
    let style := if pyLower req.mode = "beginner" then "Beginner" else "Expert"
    Except.ok
      { mode := pyLower style
        summary := style ++ " view: " ++ pyStrip req.query ++
          " likely driven by liquidity rotation, macro risk appetite, and exchange flow dynamics."
        key_points :=
          [ "Price action concentrated around key liquidity zones"
          , "Funding rates normalizing after recent spikes"
          , "Net exchange outflows suggest accumulation"
          , "Derivatives skew implies moderate upside bias" ]
        confidence := 0.72
        sources :=
          [ "CeFi spot feeds"
          , "On-chain exchange flows"
          , "Derivatives funding + OI" ] }

example : (pyStrip "  BTC dip  ") = "BTC dip" := by decide
example : pyLower "BeGiNnEr" = "beginner" := by decide
example : explain { query := "hi" } = Except.error (400, "Query is too short") := rfl

/-- One asset row of the market snapshot (main.py lines 94-95 etc.). -/
structure Asset where
  symbol : String
  change24h : Rat
  marketCap : Int
deriving Repr, DecidableEq

/-- One sector of the market snapshot (main.py lines 89-115). -/
structure Sector where
  name : String
  change24h : Rat
  volume : Int
  assets : List Asset
deriving Repr, DecidableEq

/-- One heatmap entry (main.py lines 118-125). -/
structure HeatmapPoint where
  id : String
  value : Rat
deriving Repr, DecidableEq

/-- Payload of `GET /api/market/overview` (main.py line 127). -/
structure MarketOverview where
  updatedAt : String
  sectors : List Sector
  heatmap : List HeatmapPoint
deriving Repr, DecidableEq

/-- Handler of `GET /api/market/overview` (main.py lines 84-127). The single
clock reading `datetime.utcnow().isoformat()` is the parameter `now`; the
handler appends `"Z"` to it and otherwise returns literal data. -/
def market_overview (now : String) : MarketOverview :=
  { updatedAt := now ++ "Z"
    sectors :=
      [ { name := "Layer 1s", change24h := 2.4, volume := 18200000000
          assets :=
            [ { symbol := "BTC", change24h := 1.2, marketCap := 1250000000000 }
            , { symbol := "ETH", change24h := 2.9, marketCap := 450000000000 } ] }
      , { name := "DeFi", change24h := -1.1, volume := 4800000000
          assets :=
            [ { symbol := "UNI", change24h := -0.8, marketCap := 8900000000 }
            , { symbol := "AAVE", change24h := -2.1, marketCap := 1500000000 } ] }
      , { name := "NFT / Gaming", change24h := 0.6, volume := 980000000
          assets :=
            [ { symbol := "IMX", change24h := 1.8, marketCap := 3400000000 }
            , { symbol := "APE", change24h := -0.3, marketCap := 650000000 } ] } ]
    heatmap :=
      [ { id := "BTC", value := 1.2 }
      , { id := "ETH", value := 2.9 }
      , { id := "SOL", value := 3.8 }
      , { id := "BNB", value := -0.7 }
      , { id := "ARB", value := 1.1 }
      , { id := "OP", value := 0.5 } ] }

/-- One report row of `GET /api/reports` (main.py lines 165-176). -/
structure ReportSummary where
  id : String
  title : String
  period : String
  createdAt : String
deriving Repr, DecidableEq

/-- Payload of `GET /api/reports` (main.py lines 163-178). -/
structure ReportsPayload where
  items : List ReportSummary
deriving Repr, DecidableEq

/-- Handler of `GET /api/reports` (main.py lines 160-178). The source calls
`datetime.utcnow()` once per item, so the two clock readings are separate
parameters `t1` and `t2`. -/
def list_reports (t1 t2 : String) : ReportsPayload :=
  { items :=
      [ { id := "weekly-crypto-outlook", title := "Weekly Crypto Outlook"
          period := "Week 46", createdAt := t1 ++ "Z" }
      , { id := "macro-brief", title := "Macro Brief: Rates + Liquidity"
          period := "This Week", createdAt := t2 ++ "Z" } ] }

/-- Outcome of the external database probe seen by `GET /test`
(main.py lines 55-70), covering every path through the handler:
the `from database import db` statement raises `ImportError`
(`moduleMissing`) or some other exception (`importExc`); `db` is `None`
(`dbNone`); evaluating `db.name` after a successful `hasattr` raises
(`attrExc`); or the handle is usable (`available`), with `name` present or
absent and `list_collection_names()` returning names or raising. -/
inductive DbProbe where
  | moduleMissing : DbProbe
  | importExc (msg : String) : DbProbe
  | dbNone : DbProbe
  | attrExc (msg : String) : DbProbe
  | available (nm : Option String) (cols : Except String (List String)) : DbProbe
deriving Repr

/-- The `response` dict built by `test_database` (main.py lines 46-53).
`database_url` and `database_name` start as Python `None`, hence `Option`. -/
structure TestResponse where
  backend : String
  database : String
  database_url : Option String
  database_name : Option String
  connection_status : String
  collections : List String
deriving Repr, DecidableEq

/-- Initial `response` dict of `test_database` (main.py lines 46-53). -/
def initResponse : TestResponse :=
  { backend := "✅ Running"
    database := "❌ Not Available"
    database_url := none
    database_name := none
    connection_status := "Not Connected"
    collections := [] }

/-- An exception escaping the `try` block of main.py lines 55-70, together
with the state of the mutable `response` dict at the moment it was raised
(the dict is mutated in place, so earlier assignments survive the raise). -/
inductive ProbeExit where
  | importErr (r : TestResponse) : ProbeExit
  | exc (msg : String) (r : TestResponse) : ProbeExit
deriving Repr, DecidableEq

/-- Body of the outer `try` block (main.py lines 55-70): updates the
response dict according to the probe outcome, or exits with an exception.
The inner `try` around `list_collection_names()` (lines 63-68) catches its
own exceptions, so the `available` case never exits abnormally. -/
def tryDbBlock (st : DbProbe) (r0 : TestResponse) : Except ProbeExit TestResponse :=
  match st with
  | .moduleMissing => Except.error (ProbeExit.importErr r0)
  | .importExc m => Except.error (ProbeExit.exc m r0)
  | .dbNone => Except.ok { r0 with database := "⚠️  Available but not initialized" }
  | .attrExc m =>
      Except.error (ProbeExit.exc m
        { r0 with database := "✅ Available", database_url := some "✅ Configured" })
  | .available nm cols =>
      let r1 : TestResponse :=
        { r0 with
          database := "✅ Available"
          database_url := some "✅ Configured"
          database_name := some (nm.getD "✅ Connected")
          connection_status := "Connected" }
      match cols with
      | Except.ok cs =>
          Except.ok { r1 with collections := cs.take 10, database := "✅ Connected & Working" }
      | Except.error e =>
          Except.ok { r1 with database := "⚠️  Connected but Error: " ++ pySlice 50 e }

/-- Final unconditional overwrites of main.py lines 77-79: `database_url`
and `database_name` are set from the presence of the `DATABASE_URL` and
`DATABASE_NAME` environment variables (`u` and `n`). -/
def setEnvFields (r : TestResponse) (u n : Bool) : TestResponse :=
  { r with
    database_url := some (if u then "✅ Set" else "❌ Not Set")
    database_name := some (if n then "✅ Set" else "❌ Not Set") }

/-- Handler of `GET /test` (main.py lines 43-81). A result `Except.ok r`
models a normal return (HTTP 200 with body `r`); `Except.error` would model
an exception propagating out of the handler. The two `except` clauses
(lines 72-75) handle both `ProbeExit` constructors, so every probe outcome
is converted into descriptive text in the body. -/
def test_database (st : DbProbe) (u n : Bool) : Except ProbeExit TestResponse :=
  match tryDbBlock st initResponse with
  | Except.ok r => Except.ok (setEnvFields r u n)
  | Except.error (ProbeExit.importErr r) =>
      Except.ok (setEnvFields
        { r with database := "❌ Database module not found (run enable-database first)" } u n)
  | Except.error (ProbeExit.exc m r) =>
      Except.ok (setEnvFields { r with database := "❌ Error: " ++ pySlice 50 m } u n)

example : (market_overview "T").sectors.length = 3 := by decide
example : (list_reports "a" "b").items.length = 2 := by decide
example :
    test_database (DbProbe.available (some "app") (Except.ok ["x"])) true false =
      Except.ok
        { backend := "✅ Running", database := "✅ Connected & Working"
          database_url := some "✅ Set", database_name := some "❌ Not Set"
          connection_status := "Connected", collections := ["x"] } := rfl

/-- Stripping the empty string yields the empty string. -/
lemma pyStrip_empty : pyStrip "" = "" := rfl

/-- A query whose stripped form has length at least 3 is itself nonempty. -/
lemma query_ne_empty_of_strip_len {q : String} (h : 3 ≤ (pyStrip q).length) :
    q ≠ "" := by
  intro e
  rw [e, pyStrip_empty] at h
  simp at h

/-- Claim C1: every request whose trimmed query has length below 3 is
rejected by `explain` with status 400 and detail "Query is too short"; no
success value is produced (the result is `Except.error`, not `Except.ok`). -/
theorem explain_rejects_short_query (req : ExplainRequest)
    (h : (pyStrip req.query).length < 3) :
    explain req = Except.error (400, "Query is too short") := by
  unfold explain
  rw [if_pos (Or.inr h)]

/-- Witness for C1 at the concrete request `{query := "hi"}`. -/
theorem explain_rejects_short_query_w :
    explain { query := "hi" } = Except.error (400, "Query is too short") :=
  explain_rejects_short_query { query := "hi" } (by decide)

/-- Claim C2: every request whose trimmed query has length at least 3
succeeds, with confidence 0.72, exactly 4 key points and exactly 3 sources,
whatever the query and mode. -/
theorem explain_ok_shape (req : ExplainRequest)
    (h : 3 ≤ (pyStrip req.query).length) :
    ∃ r, explain req = Except.ok r ∧ r.confidence = 0.72 ∧
      r.key_points.length = 4 ∧ r.sources.length = 3 := by
  have hg : ¬(req.query = "" ∨ (pyStrip req.query).length < 3) := by
    push_neg
    exact ⟨query_ne_empty_of_strip_len h, by omega⟩
  unfold explain
  rw [if_neg hg]
  exact ⟨_, rfl, rfl, rfl, rfl⟩

/-- Witness for C2 at the concrete request `{query := "BTC dip"}`. -/
theorem explain_ok_shape_w :
    ∃ r, explain { query := "BTC dip" } = Except.ok r ∧ r.confidence = 0.72 ∧
      r.key_points.length = 4 ∧ r.sources.length = 3 :=
  explain_ok_shape { query := "BTC dip" } (by decide)

/-- Claim C10: `explain` is deterministic — two requests with equal `query`
and `mode` fields produce equal outcomes. The handler reads no clock and no
external state, so the outcome is a function of the request alone. -/
theorem explain_deterministic (r1 r2 : ExplainRequest)
    (hq : r1.query = r2.query) (hm : r1.mode = r2.mode) :
    explain r1 = explain r2 := by
  cases r1
  cases r2
  cases hq
  cases hm
  rfl

/-- Witness for C10 at a concrete pair of equal requests. -/
theorem explain_deterministic_w :
    explain { query := "ETH flows", mode := "beginner" } =
      explain { query := "ETH flows", mode := "beginner" } :=
  explain_deterministic
    { query := "ETH flows", mode := "beginner" }
    { query := "ETH flows", mode := "beginner" } rfl rfl

/-- On a successful run, `explain` returns exactly the record built on
main.py lines 147-157, with the style chosen on line 138. Shared shape
lemma for the mode and summary claims. -/
lemma explain_ok_eq (req : ExplainRequest) (r : ExplainResponse)
    (h : explain req = Except.ok r) :
    r = { mode := pyLower (if pyLower req.mode = "beginner" then "Beginner" else "Expert")
          summary := (if pyLower req.mode = "beginner" then "Beginner" else "Expert") ++
            " view: " ++ pyStrip req.query ++
            " likely driven by liquidity rotation, macro risk appetite, and exchange flow dynamics."
          key_points :=
            [ "Price action concentrated around key liquidity zones"
            , "Funding rates normalizing after recent spikes"
            , "Net exchange outflows suggest accumulation"
            , "Derivatives skew implies moderate upside bias" ]
          confidence := 0.72
          sources :=
            [ "CeFi spot feeds"
            , "On-chain exchange flows"
            , "Derivatives funding + OI" ] } := by
  unfold explain at h
  by_cases hg : req.query = "" ∨ (pyStrip req.query).length < 3
  · rw [if_pos hg] at h
    cases h
  · rw [if_neg hg] at h
    simp only at h
    cases h
    rfl

/-- Claim C3: on every successful run, the response `mode` is `"beginner"`
exactly when the request `mode` lowercases to `"beginner"` (case-insensitive
match, with omitted mode defaulting to `"expert"` via the record default);
any other mode yields response mode `"expert"`. -/
theorem explain_mode_selection (req : ExplainRequest) (r : ExplainResponse)
    (h : explain req = Except.ok r) :
    (r.mode = "beginner" ↔ pyLower req.mode = "beginner") ∧
    (pyLower req.mode ≠ "beginner" → r.mode = "expert") := by
  rw [explain_ok_eq req r h]
  by_cases hm : pyLower req.mode = "beginner" <;> simp [hm] <;> decide

/-- Witness for C3 at the concrete request `{query := "BTC dip",
mode := "BEGINNER"}` (uppercase mode, matched case-insensitively). -/
theorem explain_mode_selection_w :
    ∃ r, explain { query := "BTC dip", mode := "BEGINNER" } = Except.ok r ∧
      r.mode = "beginner" := by
  refine ⟨_, rfl, ?_⟩
  exact (explain_mode_selection { query := "BTC dip", mode := "BEGINNER" } _ rfl).1.mpr
    (by decide)

/-- Claim C4: on every successful run, the summary is the fixed template
with the style label and the trimmed query interpolated. -/
theorem explain_summary_template (req : ExplainRequest) (r : ExplainResponse)
    (h : explain req = Except.ok r) :
    r.summary = (if pyLower req.mode = "beginner" then "Beginner" else "Expert") ++
      " view: " ++ pyStrip req.query ++
      " likely driven by liquidity rotation, macro risk appetite, and exchange flow dynamics." := by
  rw [explain_ok_eq req r h]

/-- Witness for C4 at `{query := "BTC dip", mode := "beginner"}`: the summary
is exactly the template instance, which starts with
"Beginner view: BTC dip likely driven by". -/
theorem explain_summary_template_w :
    ∃ r, explain { query := "BTC dip", mode := "beginner" } = Except.ok r ∧
      r.summary =
        "Beginner view: BTC dip likely driven by liquidity rotation, macro risk appetite, and exchange flow dynamics." ∧
      ("Beginner view: BTC dip likely driven by".toList).isPrefixOf r.summary.toList = true := by
  refine ⟨_, rfl, ?_, ?_⟩
  · rw [explain_summary_template { query := "BTC dip", mode := "beginner" } _ rfl]
    decide
  · decide

/-- Claim C5: `GET /test` never fails. For every probe outcome (module
missing, other import fault, `None` handle, attribute access raising,
collection listing succeeding or raising) and any environment-variable
state, the handler returns normally: the two `except` clauses cover both
exception constructors, so the result is always `Except.ok`. -/
theorem test_database_never_fails (st : DbProbe) (u n : Bool) :
    ∃ r, test_database st u n = Except.ok r := by
  cases st with
  | moduleMissing => exact ⟨_, rfl⟩
  | importExc m => exact ⟨_, rfl⟩
  | dbNone => exact ⟨_, rfl⟩
  | attrExc m => exact ⟨_, rfl⟩
  | available nm cols =>
      cases cols with
      | ok cs => exact ⟨_, rfl⟩
      | error e => exact ⟨_, rfl⟩

/-- Claim C8: the `collections` field of every `GET /test` response has at
most 10 entries; when `list_collection_names()` succeeds it is the first 10
(or fewer) of the returned names, and in every other probe outcome it is
empty. -/
theorem test_database_collections (st : DbProbe) (u n : Bool) (r : TestResponse)
    (h : test_database st u n = Except.ok r) :
    r.collections.length ≤ 10 ∧
    (∀ nm cs, st = DbProbe.available nm (Except.ok cs) → r.collections = cs.take 10) ∧
    ((∀ nm cs, st ≠ DbProbe.available nm (Except.ok cs)) → r.collections = []) := by
  cases st with
  | moduleMissing =>
      cases h
      refine ⟨by simp [initResponse, setEnvFields], by simp, fun _ => rfl⟩
  | importExc m =>
      cases h
      refine ⟨by simp [initResponse, setEnvFields], by simp, fun _ => rfl⟩
  | dbNone =>
      cases h
      refine ⟨by simp [initResponse, setEnvFields], by simp, fun _ => rfl⟩
  | attrExc m =>
      cases h
      refine ⟨by simp [initResponse, setEnvFields], by simp, fun _ => rfl⟩
  | available nm cols =>
      cases cols with
      | ok cs =>
          cases h
          refine ⟨?_, ?_, ?_⟩
          · simp only [setEnvFields, List.length_take]
            exact min_le_left 10 cs.length
          · intro nm2 cs2 he
            cases he
            rfl
          · intro hne
            exact absurd rfl (hne nm cs)
      | error e =>
          cases h
          refine ⟨by simp [initResponse, setEnvFields, tryDbBlock, test_database], ?_, fun _ => rfl⟩
          intro nm2 cs2 he
          cases he

/-- Witness for C8, probing a store with two collections: the response holds
both names (`take 10` of the returned list). -/
theorem test_database_collections_w :
    ∃ r, test_database (DbProbe.available (some "app") (Except.ok ["users", "orders"]))
        true false = Except.ok r ∧
      r.collections = (["users", "orders"] : List String).take 10 := by
  refine ⟨_, rfl, ?_⟩
  exact (test_database_collections
    (DbProbe.available (some "app") (Except.ok ["users", "orders"])) true false _ rfl).2.1
    (some "app") ["users", "orders"] rfl

/-- Claim C9: in every `GET /test` response the final `database_url` and
`database_name` fields depend only on the presence flags of the
`DATABASE_URL` and `DATABASE_NAME` environment variables — the intermediate
values written in the database-available branch are always overwritten by
the unconditional assignments of main.py lines 77-79. -/
theorem test_database_env_fields (st : DbProbe) (u n : Bool) (r : TestResponse)
    (h : test_database st u n = Except.ok r) :
    r.database_url = some (if u then "✅ Set" else "❌ Not Set") ∧
    r.database_name = some (if n then "✅ Set" else "❌ Not Set") := by
  cases st with
  | moduleMissing => cases h; exact ⟨rfl, rfl⟩
  | importExc m => cases h; exact ⟨rfl, rfl⟩
  | dbNone => cases h; exact ⟨rfl, rfl⟩
  | attrExc m => cases h; exact ⟨rfl, rfl⟩
  | available nm cols =>
      cases cols with
      | ok cs => cases h; exact ⟨rfl, rfl⟩
      | error e => cases h; exact ⟨rfl, rfl⟩

/-- Witness for C9 on the attribute-fault path with `DATABASE_URL` unset and
`DATABASE_NAME` set: the intermediate "✅ Configured" written before the
fault does not survive into the response. -/
theorem test_database_env_fields_w :
    ∃ r, test_database (DbProbe.attrExc "boom") false true = Except.ok r ∧
      r.database_url = some "❌ Not Set" ∧ r.database_name = some "✅ Set" := by
  refine ⟨_, rfl, ?_⟩
  exact test_database_env_fields (DbProbe.attrExc "boom") false true _ rfl

/-- Claim C6: every `GET /api/market/overview` payload has exactly 3
sectors with exactly 2 assets each and exactly 6 heatmap points; the whole
payload is constant across clock readings except for `updatedAt`, which is
the current timestamp (with "Z" appended). -/
theorem market_overview_shape (t t2 : String) :
    (market_overview t).sectors.length = 3 ∧
    (market_overview t).sectors.map (fun s => s.assets.length) = [2, 2, 2] ∧
    (market_overview t).heatmap.length = 6 ∧
    (market_overview t).updatedAt = t ++ "Z" ∧
    (market_overview t).sectors = (market_overview t2).sectors ∧
    (market_overview t).heatmap = (market_overview t2).heatmap :=
  ⟨rfl, rfl, rfl, rfl, rfl, rfl⟩

/-- Claim C7: every `GET /api/reports` payload has exactly 2 items, with ids
`weekly-crypto-outlook` and `macro-brief` in that order, and the per-item
clock readings substituted (with "Z" appended) into `createdAt`. -/
theorem list_reports_shape (t1 t2 : String) :
    (list_reports t1 t2).items.length = 2 ∧
    (list_reports t1 t2).items.map (fun i => i.id) = ["weekly-crypto-outlook", "macro-brief"] ∧
    (list_reports t1 t2).items.map (fun i => i.createdAt) = [t1 ++ "Z", t2 ++ "Z"] :=
  ⟨rfl, rfl, rfl⟩
